import Mathlib

/-!
Verification of the configuration layer in
`src/hopp/simulation/technologies/wind/wind_plant.py` (class `WindPlant`).

The PySAM system model is reached through a key/value interface
(`self._system_model.value(key)` / `value(key, v)`).  We embed the keys the
code under scrutiny reads and writes as fields of a record `SystemModel`.
Machine floats are modelled as exact rationals (`ℚ`); the claims under
examination are about exact arithmetic, control flow and raised errors, not
rounding.  Python exceptions are modelled with an explicit error type and
`Except` results; a function returning `Option` models code whose only
failure mode is a raised builtin error on a degenerate input (e.g. `max()` of
an empty sequence, division by zero).
-/

/-- Python exception values raised by the code under scrutiny. -/
inductive PyError where
  | valueError (msg : String)
  | runtimeError (msg : String)
  | notImplementedError
deriving DecidableEq, Repr

/-- The wind-resource `data` dictionary: the `"heights"` entry together with
the (abstracted) time-series arrays. -/
structure ResourceData where
  heights : List ℚ
  series : List ℚ
deriving DecidableEq, Repr

/-- The `site.wind_resource` object: geographic coordinates, the year of the
retrieved data, the recorded hub height and the data dictionary. -/
structure WindResource where
  latitude : ℚ
  longitude : ℚ
  year : Int
  hub_height_meters : ℚ
  data : ResourceData
deriving DecidableEq, Repr

/-- The slice of the PySAM `Windpower` model state that
`wind_plant.py` reads and writes through `value(...)` and
`Turbine.*` attribute access. -/
structure SystemModel where
  wind_farm_wake_model : Int
  wind_farm_xCoordinates : List ℚ
  wind_farm_yCoordinates : List ℚ
  wind_turbine_powercurve_windspeeds : List ℚ
  wind_turbine_powercurve_powerout : List ℚ
  wind_turbine_rotor_diameter : ℚ
  wind_turbine_hub_ht : ℚ
  system_capacity : ℚ
  wind_resource_data : ResourceData
deriving DecidableEq, Repr

/-- Python `max(l)`: the maximum of a nonempty list, `none` on the empty list
(where Python raises `ValueError`). -/
def pythonMax : List ℚ → Option ℚ
  | [] => none
  | x :: xs => some (xs.foldl max x)

/-- Python `min(l)`: the minimum of a nonempty list, `none` on the empty list
(where Python raises `ValueError`). -/
def pythonMin : List ℚ → Option ℚ
  | [] => none
  | x :: xs => some (xs.foldl min x)

/-- The `WindPlant.wake_model` setter (wind_plant.py lines 306-312):

    if 0 <= model_type < 4:
        try:
            self._system_model.value("wind_farm_wake_model", model_type)
        except:
            raise NotImplementedError

The `value` write on a valid key succeeds, so the `except` arm is dead here;
there is no `else` branch, so an out-of-range `model_type` falls through the
`if` and the setter returns with no exception and no write. -/
def wake_model_setter (m : SystemModel) (model_type : Int) : Except PyError SystemModel :=
  if 0 ≤ model_type ∧ model_type < 4 then
    .ok { m with wind_farm_wake_model := model_type }
  else
    .ok m

/-- The `WindPlant.turb_rating` setter (wind_plant.py lines 354-370):

    scaling = rating_kw / self.turb_rating
    self._system_model.value("wind_turbine_powercurve_powerout",
        [i * scaling for i in self._system_model.value("wind_turbine_powercurve_powerout")])
    self._system_model.value("system_capacity",
        self.turb_rating * len(self._system_model.value("wind_farm_xCoordinates")))

The getter `self.turb_rating` is `max(value("wind_turbine_powercurve_powerout"))`
(lines 346-352) and is evaluated twice: once before the power-curve write (for
`scaling`) and once after (for `system_capacity`).  `none` models Python
raising: `max()` on an empty power curve, or `ZeroDivisionError` when the
current maximum is zero. -/
def turb_rating_setter (m : SystemModel) (rating_kw : ℚ) : Option SystemModel :=
  match pythonMax m.wind_turbine_powercurve_powerout with
  | none => none
  | some oldMax =>
    if oldMax = 0 then none
    else
      let scaling := rating_kw / oldMax
      let m1 := { m with wind_turbine_powercurve_powerout :=
                    m.wind_turbine_powercurve_powerout.map (fun i => i * scaling) }
      match pythonMax m1.wind_turbine_powercurve_powerout with
      | none => none
      | some newMax =>
        some { m1 with system_capacity :=
                 newMax * (m1.wind_farm_xCoordinates.length : ℚ) }

/-- `WindPlant.modify_coordinates` (wind_plant.py lines 412-426):

    if len(xcoords) != len(ycoords):
        raise ValueError("WindPlant turbine coordinate arrays must have same length")
    if self.config.model_name=="floris":
        self._system_model.wind_farm_layout(xcoords, ycoords)
    else:
        self._system_model.value("wind_farm_xCoordinates", xcoords)
        self._system_model.value("wind_farm_yCoordinates", ycoords)
        self._system_model.value("system_capacity", self.turb_rating * len(xcoords))

The floris branch delegates the layout update to the external Floris object;
that external call is outside the PySAM state embedded here, so the branch
leaves `SystemModel` unchanged.  In the pysam branch `self.turb_rating` is
`max(...)` of the (unchanged) power curve; `none` models the raised error on
an empty curve. -/
def modify_coordinates (model_name : String) (m : SystemModel)
    (xcoords ycoords : List ℚ) : Except PyError (Option SystemModel) :=
  if xcoords.length ≠ ycoords.length then
    .error (.valueError "WindPlant turbine coordinate arrays must have same length")
  else if model_name = "floris" then
    .ok (some m)
  else
    match pythonMax m.wind_turbine_powercurve_powerout with
    | none => .ok none
    | some rating =>
      .ok (some { m with
                    wind_farm_xCoordinates := xcoords
                    wind_farm_yCoordinates := ycoords
                    system_capacity := rating * (xcoords.length : ℚ) })

/-- The message of the `RuntimeError` raised by `WindPlant.modify_powercurve`
(wind_plant.py lines 403-407), with the `rotor_diam` and `rating_kw`
parameters formatted into it. -/
def powercurve_fail_msg (rotor_diam rating_kw : ℚ) : String :=
  "WindPlant.turb_rating could not calculate turbine powercurve with diameter=" ++
    toString rotor_diam ++ ", rating=" ++ toString rating_kw ++
    ". Check diameter or turn off recalculate_powercurve"

/-- `WindPlant.modify_powercurve` (wind_plant.py lines 372-410).  The call
`self._system_model.Turbine.calculate_powercurve(rating_kw, int(rotor_diameter),
elevation, ...)` is a call into the external PySAM engine; its outcome is
passed in as `engine`: on success the engine rewrites the turbine power-curve
arrays (the pair carried by `.ok`), on failure it raises with some detail
string (carried by `.error`).  The bare `except:` catches any engine failure
and raises `RuntimeError` with `powercurve_fail_msg`; on success the code then
writes `wind_turbine_rotor_diameter = rotor_diam` and
`system_capacity = rating_kw * self.num_turbines`
(`num_turbines = len(value("wind_farm_xCoordinates"))`, lines 314-316). -/
def modify_powercurve (engine : Except String (List ℚ × List ℚ))
    (m : SystemModel) (rotor_diam rating_kw : ℚ) : Except PyError SystemModel :=
  match engine with
  | .error _detail => .error (.runtimeError (powercurve_fail_msg rotor_diam rating_kw))
  | .ok (new_windspeeds, new_powerout) =>
    let m1 := { m with
                  wind_turbine_powercurve_windspeeds := new_windspeeds
                  wind_turbine_powercurve_powerout := new_powerout
                  wind_turbine_rotor_diameter := rotor_diam }
    .ok { m1 with system_capacity :=
            rating_kw * (m1.wind_farm_xCoordinates.length : ℚ) }

/-- The message of the `ValueError` raised by the `WindPlant.num_turbines`
setter for a custom layout (wind_plant.py lines 327-332). -/
def num_turbines_mismatch_msg (n_turbines n_turbs_layout : Nat) : String :=
  "Using custom wind farm layout and input number of turbines (" ++
    toString n_turbines ++ ") does not equal length of layout (" ++
    toString n_turbs_layout ++ "). Please either update num_turbines in the " ++
    "hopp config to " ++ toString n_turbs_layout ++ " Or change the layout to " ++
    "include " ++ toString n_turbines ++ " unique turbine positions."

/-- The validation performed by the `WindPlant.num_turbines` setter
(wind_plant.py lines 318-334):

    if self._layout.layout_mode == "custom":
        if n_turbines == len(self._layout.parameters.layout_x):
            self._layout.set_num_turbines(n_turbines)
        else:
            if n_turbines != len(self._system_model.value("wind_farm_xCoordinates")):
                ...
                raise ValueError(msg)
    self._layout.set_num_turbines(n_turbines)

`layout_x` is the custom layout's x-coordinate list and `sys_x` the system
model's `wind_farm_xCoordinates`.  `self._layout.set_num_turbines` belongs to
`WindLayout` (external to the file under scrutiny); the embedding records only
whether the assignment raises (`.error`) or reaches that call (`.ok`). -/
def num_turbines_setter (layout_mode : String) (layout_x sys_x : List ℚ)
    (n_turbines : Nat) : Except PyError Unit :=
  if layout_mode = "custom" then
    if n_turbines = layout_x.length then
      .ok ()
    else if n_turbines ≠ sys_x.length then
      .error (.valueError (num_turbines_mismatch_msg n_turbines sys_x.length))
    else
      .ok ()
  else
    .ok ()

/-- The message built (but never raised) by
`WindPlant.initialize_pysam_wind_turbine` for an unknown turbine name
(wind_plant.py lines 234-237). -/
def unknown_turbine_msg (name : String) : String :=
  "Turbine name " ++ name ++ " was not found the turbine-models library. " ++
    "Please try an available name."

/-- Outcome of the turbine-name validation step: either a raised error, or
control proceeding to `turb_lib_interface.get_pysam_turbine_specs(turbine_name,
self)` with the local variable `turbine_name` bound (`some name`) or unbound
(`none`, which makes that next statement fail with `UnboundLocalError`). -/
inductive TurbineNameOutcome where
  | raised (e : PyError)
  | proceedsToLookup (bound_turbine_name : Option String)
deriving DecidableEq, Repr

/-- The turbine-name validation step of
`WindPlant.initialize_pysam_wind_turbine` (wind_plant.py lines 230-241):

    valid_name = check_turbine_library_for_turbine(self.config.turbine_name, ...)
    if not valid_name:
        print_turbine_name_list()
        msg = (f"Turbine name ... was not found the turbine-models library. ...")
        ValueError(msg)
    else:
        turbine_name = self.config.turbine_name
    turbine_dict = turb_lib_interface.get_pysam_turbine_specs(turbine_name,self)

`valid_name` is the result of the external library lookup, passed in as a
boolean.  In the invalid branch the statement `ValueError(msg)` constructs the
exception object and discards it — there is no `raise` — so control falls
through to the `get_pysam_turbine_specs` call with `turbine_name` never
assigned. -/
def turbine_name_validation (valid_name : Bool) (config_turbine_name : String) :
    TurbineNameOutcome :=
  if valid_name then
    .proceedsToLookup (some config_turbine_name)
  else
    let _msg := unknown_turbine_msg config_turbine_name
    .proceedsToLookup none

/-- The site state touched by the hub-height reconciliation in
`WindPlant.initialize_pysam_wind_turbine`. -/
structure SiteState where
  hub_height : ℚ
  wind_resource : WindResource
deriving DecidableEq, Repr

/-- The hub-height / resource-height reconciliation step of
`WindPlant.initialize_pysam_wind_turbine` (wind_plant.py lines 267-283):

    hub_height = self._system_model.Turbine.wind_turbine_hub_ht
    if hub_height != self.site.wind_resource.hub_height_meters:
        if hub_height >= min(self.site.wind_resource.data["heights"]) and
           hub_height <= max(self.site.wind_resource.data["heights"]):
            self.site.wind_resource.hub_height_meters = float(hub_height)
            self.site.hub_height = float(hub_height)
        else:
            self.site.hub_height = hub_height
            data = {"lat": ..., "lon": ..., "year": ...}
            wind_resource = self.site.initialize_wind_resource(data)
            self.site.wind_resource = wind_resource
            self._system_model.value("wind_resource_data", self.site.wind_resource.data)

`fetch` stands for the external re-download `site.initialize_wind_resource`,
applied to the stored resource's latitude, longitude and year.  `none` models
the builtin error Python raises when `data["heights"]` is empty. -/
def hub_height_reconcile (fetch : ℚ → ℚ → Int → WindResource)
    (site : SiteState) (m : SystemModel) : Option (SiteState × SystemModel) :=
  let hh := m.wind_turbine_hub_ht
  if hh = site.wind_resource.hub_height_meters then
    some (site, m)
  else
    match pythonMin site.wind_resource.data.heights,
          pythonMax site.wind_resource.data.heights with
    | some mn, some mx =>
      if mn ≤ hh ∧ hh ≤ mx then
        some ({ site with
                  hub_height := hh
                  wind_resource := { site.wind_resource with hub_height_meters := hh } },
              m)
      else
        let wr := fetch site.wind_resource.latitude site.wind_resource.longitude
                    site.wind_resource.year
        some ({ hub_height := hh, wind_resource := wr },
              { m with wind_resource_data := wr.data })
    | _, _ => none

/-- A concrete system-model state used for counterexamples and witnesses. -/
def sampleModel : SystemModel :=
  { wind_farm_wake_model := 1
    wind_farm_xCoordinates := [0, 500, 1000]
    wind_farm_yCoordinates := [0, 0, 0]
    wind_turbine_powercurve_windspeeds := [0, 5, 10, 15]
    wind_turbine_powercurve_powerout := [0, 300, 1000, 1000]
    wind_turbine_rotor_diameter := 77
    wind_turbine_hub_ht := 80
    system_capacity := 3000
    wind_resource_data := { heights := [80, 100], series := [7, 8, 9] } }

/-- A concrete custom-layout x-coordinate list (3 turbines). -/
def sampleLayoutX : List ℚ := [0, 500, 1000]

/-- A concrete `wind_farm_xCoordinates` value of length 2, disagreeing with
`sampleLayoutX`. -/
def sampleSysX : List ℚ := [0, 500]

/-- A concrete stand-in for the external re-download
`site.initialize_wind_resource`: returns a resource recorded at the requested
coordinates with a single measured height of 110 m. -/
def sampleFetch : ℚ → ℚ → Int → WindResource := fun la lo y =>
  { latitude := la
    longitude := lo
    year := y
    hub_height_meters := 110
    data := { heights := [110], series := [5, 6] } }

/-- A concrete site state: resource recorded at 80 m with measured heights
60 m and 100 m. -/
def sampleSite : SiteState :=
  { hub_height := 80
    wind_resource :=
      { latitude := 1
        longitude := 2
        year := 2012
        hub_height_meters := 80
        data := { heights := [60, 100], series := [7, 8] } } }

/-- `sampleModel` with the turbine hub height raised to 110 m, above every
measured resource height of `sampleSite`. -/
def sampleModelHigh : SystemModel :=
  { sampleModel with wind_turbine_hub_ht := 110 }

/-- `sampleModel` with the turbine hub height at 90 m, inside the measured
resource-height range of `sampleSite` but different from its recorded 80 m. -/
def sampleModelMid : SystemModel :=
  { sampleModel with wind_turbine_hub_ht := 90 }

section Theorems

/-- C1 counterexample: the wake-model index 4 is outside the range 0 to 3,
yet the `WindPlant.wake_model` setter raises nothing and returns with the
stored state exactly as it was (the result is `ok` on the unchanged state,
not an error), refuting the claim that such an assignment fails with a
descriptive message. -/
theorem wake_model_c1_counterexample :
    wake_model_setter sampleModel 4 = Except.ok sampleModel := rfl

/-- C1 (amended): for every wake-model index outside the range 0 to 3, the
`WindPlant.wake_model` setter raises no error and applies no default: the
assignment is silently ignored, returning the stored system-model state
unchanged. -/
theorem wake_model_setter_out_of_range_silent (m : SystemModel) (t : Int)
    (h : ¬ (0 ≤ t ∧ t < 4)) :
    wake_model_setter m t = Except.ok m := by
  unfold wake_model_setter
  rw [if_neg h]

/-- Witness for C1 (amended) at the out-of-range index 5. -/
theorem wake_model_setter_out_of_range_silent_witness :
    wake_model_setter sampleModel 5 = Except.ok sampleModel :=
  wake_model_setter_out_of_range_silent sampleModel 5 (by decide)

/-- C10: for every wake-model index below 0 or at least 4, invoking the
`WindPlant.wake_model` setter leaves the stored `wind_farm_wake_model` (and
all other system-model state) unchanged: the out-of-range assignment is a
no-op returning the very same state. -/
theorem wake_model_setter_out_of_range_noop (m : SystemModel) (t : Int)
    (h : t < 0 ∨ 4 ≤ t) :
    wake_model_setter m t = Except.ok m := by
  unfold wake_model_setter
  rw [if_neg (by omega)]

/-- Witness for C10 at the out-of-range index -1. -/
theorem wake_model_setter_out_of_range_noop_witness :
    wake_model_setter sampleModel (-1) = Except.ok sampleModel :=
  wake_model_setter_out_of_range_noop sampleModel (-1) (by decide)

/-- C2: for a turbine name absent from the turbine-models library
(`valid_name = false`), the validation step of
`WindPlant.initialize_pysam_wind_turbine` raises nothing — the statement
`ValueError(msg)` constructs the exception without `raise` — and control
continues past the failed lookup to `get_pysam_turbine_specs` with the local
variable `turbine_name` unbound, contrary to the function's own docstring
("Raises ValueError: if invalid turbine name is provided"). -/
theorem turbine_name_invalid_not_raised :
    turbine_name_validation false "not_a_real_turbine" =
      TurbineNameOutcome.proceedsToLookup none := rfl

/-- C7 counterexample: with a custom layout of 3 coordinates
(`sampleLayoutX`) and a stored `wind_farm_xCoordinates` of length 2
(`sampleSysX`), assigning `num_turbines = 2` does not equal the layout's
coordinate count yet raises no `ValueError` and succeeds, refuting the claim
that the assignment succeeds only when the count matches the layout. -/
theorem num_turbines_c7_counterexample :
    num_turbines_setter "custom" sampleLayoutX sampleSysX 2 = Except.ok () := rfl

/-- C7 (amended): with the layout mode `"custom"`, assigning
`WindPlant.num_turbines = n` raises a `ValueError` with a descriptive message
exactly when `n` differs from both the custom layout's x-coordinate count and
the length of the stored `wind_farm_xCoordinates`; when `n` matches either
count the assignment succeeds. -/
theorem num_turbines_setter_custom_spec (layout_x sys_x : List ℚ) (n : Nat) :
    num_turbines_setter "custom" layout_x sys_x n =
      (if n = layout_x.length ∨ n = sys_x.length then Except.ok ()
       else Except.error
         (PyError.valueError (num_turbines_mismatch_msg n sys_x.length))) := by
  unfold num_turbines_setter
  rw [if_pos rfl]
  by_cases h1 : n = layout_x.length
  · simp [h1]
  · by_cases h2 : n = sys_x.length
    · simp [h1, h2]
    · simp [h1, h2]

/-- C8: whenever the external engine's power-curve recalculation inside
`WindPlant.modify_powercurve` fails — with any failure detail whatsoever —
the failure is re-raised as a `RuntimeError` whose message embeds the
`rotor_diam` and `rating_kw` parameters; the resulting error is the same for
every engine detail string, so the original failure detail is discarded. -/
theorem modify_powercurve_discards_engine_detail
    (detail : String) (m : SystemModel) (rotor_diam rating_kw : ℚ) :
    modify_powercurve (Except.error detail) m rotor_diam rating_kw =
      Except.error (PyError.runtimeError (powercurve_fail_msg rotor_diam rating_kw)) := rfl

end Theorems

/-- Scaling every entry of a list by a nonneg factor scales its running
`foldl max`. -/
theorem foldl_max_map_mul (s : ℚ) (hs : 0 ≤ s) :
    ∀ (xs : List ℚ) (x : ℚ),
      (xs.map (fun i => i * s)).foldl max (x * s) = xs.foldl max x * s
  | [], _ => rfl
  | a :: as, x => by
    simp only [List.map_cons, List.foldl_cons]
    rw [← max_mul_of_nonneg x a hs]
    exact foldl_max_map_mul s hs as (max x a)

/-- `pythonMax` commutes with scaling by a nonneg factor. -/
theorem pythonMax_map_mul (s : ℚ) (hs : 0 ≤ s) (l : List ℚ) :
    pythonMax (l.map (fun i => i * s)) = (pythonMax l).map (fun v => v * s) := by
  cases l with
  | nil => rfl
  | cons x xs =>
    show some ((xs.map (fun i => i * s)).foldl max (x * s)) = some (xs.foldl max x * s)
    rw [foldl_max_map_mul s hs xs x]

/-- Closed form of the `turb_rating` setter when the current power-curve
maximum is `mx ≠ 0` and the resulting scaling factor is nonneg. -/
theorem turb_rating_setter_eq (m : SystemModel) (r mx : ℚ)
    (hmax : pythonMax m.wind_turbine_powercurve_powerout = some mx)
    (hne : mx ≠ 0) (hs : 0 ≤ r / mx) :
    turb_rating_setter m r =
      some { m with
               wind_turbine_powercurve_powerout :=
                 m.wind_turbine_powercurve_powerout.map (fun i => i * (r / mx))
               system_capacity :=
                 mx * (r / mx) * (m.wind_farm_xCoordinates.length : ℚ) } := by
  unfold turb_rating_setter
  rw [hmax]
  dsimp only
  rw [if_neg hne]
  have h2 : pythonMax (m.wind_turbine_powercurve_powerout.map (fun i => i * (r / mx)))
      = some (mx * (r / mx)) := by
    rw [pythonMax_map_mul (r / mx) hs, hmax]
    rfl
  rw [h2]

/-- C3: for every positive rating `rating_kw`, when the current power curve's
maximum `mx` is positive, assigning `WindPlant.turb_rating = rating_kw`
succeeds and stores a `system_capacity` equal to `rating_kw` times the number
of turbines (the length of the `wind_farm_xCoordinates` array), under exact
arithmetic. -/
theorem turb_rating_sets_system_capacity (m : SystemModel) (rating_kw mx : ℚ)
    (hmax : pythonMax m.wind_turbine_powercurve_powerout = some mx)
    (hmx : 0 < mx) (hr : 0 < rating_kw) :
    ∃ m2, turb_rating_setter m rating_kw = some m2 ∧
      m2.system_capacity = rating_kw * (m2.wind_farm_xCoordinates.length : ℚ) := by
  refine ⟨_, turb_rating_setter_eq m rating_kw mx hmax (ne_of_gt hmx)
    (le_of_lt (div_pos hr hmx)), ?_⟩
  have hcancel : mx * (rating_kw / mx) = rating_kw := by
    field_simp
  dsimp only
  rw [hcancel]

/-- Witness for C3: `sampleModel` (power-curve maximum 1000, 3 turbines) at
rating 2000. -/
theorem turb_rating_sets_system_capacity_witness :
    ∃ m2, turb_rating_setter sampleModel 2000 = some m2 ∧
      m2.system_capacity = 2000 * (m2.wind_farm_xCoordinates.length : ℚ) :=
  turb_rating_sets_system_capacity sampleModel 2000 1000 (by decide) (by decide)
    (by decide)

/-- C4: for every positive rating `rating_kw`, when the current power curve's
maximum `mx` is positive, assigning `WindPlant.turb_rating = rating_kw`
succeeds and every element of the new `wind_turbine_powercurve_powerout`
array equals the corresponding element of the prior array multiplied by the
single scalar `rating_kw / mx` (the array lengths agree and index `j` of the
new array is index `j` of the old times that uniform scalar). -/
theorem turb_rating_scales_powercurve (m : SystemModel) (rating_kw mx : ℚ)
    (hmax : pythonMax m.wind_turbine_powercurve_powerout = some mx)
    (hmx : 0 < mx) (hr : 0 < rating_kw) :
    ∃ m2, turb_rating_setter m rating_kw = some m2 ∧
      m2.wind_turbine_powercurve_powerout.length =
        m.wind_turbine_powercurve_powerout.length ∧
      ∀ j : Nat, m2.wind_turbine_powercurve_powerout[j]? =
        (m.wind_turbine_powercurve_powerout[j]?).map
          (fun i => i * (rating_kw / mx)) := by
  refine ⟨_, turb_rating_setter_eq m rating_kw mx hmax (ne_of_gt hmx)
    (le_of_lt (div_pos hr hmx)), ?_, ?_⟩
  · dsimp only
    exact List.length_map _ _
  · intro j
    dsimp only
    exact List.getElem?_map _ _ _

/-- Witness for C4: `sampleModel` at rating 2000 (scalar 2). -/
theorem turb_rating_scales_powercurve_witness :
    ∃ m2, turb_rating_setter sampleModel 2000 = some m2 ∧
      m2.wind_turbine_powercurve_powerout.length =
        sampleModel.wind_turbine_powercurve_powerout.length ∧
      ∀ j : Nat, m2.wind_turbine_powercurve_powerout[j]? =
        (sampleModel.wind_turbine_powercurve_powerout[j]?).map
          (fun i => i * (2000 / 1000)) :=
  turb_rating_scales_powercurve sampleModel 2000 1000 (by decide) (by decide)
    (by decide)

/-- C9: for every positive rating `rating_kw` (current power-curve maximum
`mx` positive), assigning `WindPlant.turb_rating = rating_kw` changes only
the `wind_turbine_powercurve_powerout` array and `system_capacity`: the
wind-speed array, both coordinate arrays, the rotor diameter, the hub height,
the wake-model selection and the wind-resource data are left unchanged. -/
theorem turb_rating_frame (m : SystemModel) (rating_kw mx : ℚ)
    (hmax : pythonMax m.wind_turbine_powercurve_powerout = some mx)
    (hmx : 0 < mx) (hr : 0 < rating_kw) :
    ∃ m2, turb_rating_setter m rating_kw = some m2 ∧
      m2.wind_turbine_powercurve_windspeeds = m.wind_turbine_powercurve_windspeeds ∧
      m2.wind_farm_xCoordinates = m.wind_farm_xCoordinates ∧
      m2.wind_farm_yCoordinates = m.wind_farm_yCoordinates ∧
      m2.wind_turbine_rotor_diameter = m.wind_turbine_rotor_diameter ∧
      m2.wind_turbine_hub_ht = m.wind_turbine_hub_ht ∧
      m2.wind_farm_wake_model = m.wind_farm_wake_model ∧
      m2.wind_resource_data = m.wind_resource_data := by
  refine ⟨_, turb_rating_setter_eq m rating_kw mx hmax (ne_of_gt hmx)
    (le_of_lt (div_pos hr hmx)), ?_⟩
  exact ⟨rfl, rfl, rfl, rfl, rfl, rfl, rfl⟩

/-- Witness for C9: `sampleModel` at rating 2000. -/
theorem turb_rating_frame_witness :
    ∃ m2, turb_rating_setter sampleModel 2000 = some m2 ∧
      m2.wind_turbine_powercurve_windspeeds =
        sampleModel.wind_turbine_powercurve_windspeeds ∧
      m2.wind_farm_xCoordinates = sampleModel.wind_farm_xCoordinates ∧
      m2.wind_farm_yCoordinates = sampleModel.wind_farm_yCoordinates ∧
      m2.wind_turbine_rotor_diameter = sampleModel.wind_turbine_rotor_diameter ∧
      m2.wind_turbine_hub_ht = sampleModel.wind_turbine_hub_ht ∧
      m2.wind_farm_wake_model = sampleModel.wind_farm_wake_model ∧
      m2.wind_resource_data = sampleModel.wind_resource_data :=
  turb_rating_frame sampleModel 2000 1000 (by decide) (by decide) (by decide)

/-- C5: `WindPlant.modify_coordinates` raises a `ValueError` whenever the
x- and y-coordinate sequences have unequal lengths; with equal lengths and
the pysam model (power-curve maximum `r`), the call succeeds and stores the
new coordinate arrays with `system_capacity` equal to the turbine rating `r`
times the number of coordinates. -/
theorem modify_coordinates_spec (model_name : String) (m : SystemModel)
    (xs ys : List ℚ) :
    (xs.length ≠ ys.length →
      modify_coordinates model_name m xs ys =
        Except.error (PyError.valueError
          "WindPlant turbine coordinate arrays must have same length")) ∧
    (xs.length = ys.length → model_name = "pysam" →
      ∀ r, pythonMax m.wind_turbine_powercurve_powerout = some r →
        modify_coordinates model_name m xs ys =
          Except.ok (some { m with
            wind_farm_xCoordinates := xs
            wind_farm_yCoordinates := ys
            system_capacity := r * (xs.length : ℚ) })) := by
  constructor
  · intro h
    unfold modify_coordinates
    rw [if_pos h]
  · intro h hm r hr
    subst hm
    unfold modify_coordinates
    rw [if_neg (not_not_intro h), if_neg (by decide), hr]

/-- Witness for C5: unequal lengths (2 vs 1) raise; equal lengths (2 and 2)
succeed on `sampleModel` with rating 1000. -/
theorem modify_coordinates_spec_witness :
    (modify_coordinates "pysam" sampleModel [1, 2] [3] =
      Except.error (PyError.valueError
        "WindPlant turbine coordinate arrays must have same length")) ∧
    (modify_coordinates "pysam" sampleModel [1, 2] [3, 4] =
      Except.ok (some { sampleModel with
        wind_farm_xCoordinates := [1, 2]
        wind_farm_yCoordinates := [3, 4]
        system_capacity := 1000 * (([(1 : ℚ), 2].length : Nat) : ℚ) })) :=
  ⟨(modify_coordinates_spec "pysam" sampleModel [1, 2] [3]).1 (by decide),
   (modify_coordinates_spec "pysam" sampleModel [1, 2] [3, 4]).2 (by decide) rfl
     1000 (by decide)⟩

/-- C6: in the hub-height reconciliation step of
`WindPlant.initialize_pysam_wind_turbine`, when the turbine hub height
differs from the resource's recorded hub height: if it lies within the
measured height range `[mn, mx]` only the recorded hub-height fields (site
hub height and resource `hub_height_meters`) are updated and the system
model is untouched; if it falls outside that range the wind resource is
re-fetched for the stored latitude, longitude and year, reassigned to the
site together with the new hub height, and the new resource data is
reassigned into the system model. -/
theorem hub_height_reconcile_spec (fetch : ℚ → ℚ → Int → WindResource)
    (site : SiteState) (m : SystemModel) (mn mx : ℚ)
    (hmn : pythonMin site.wind_resource.data.heights = some mn)
    (hmx : pythonMax site.wind_resource.data.heights = some mx)
    (hne : m.wind_turbine_hub_ht ≠ site.wind_resource.hub_height_meters) :
    ((mn ≤ m.wind_turbine_hub_ht ∧ m.wind_turbine_hub_ht ≤ mx) →
       hub_height_reconcile fetch site m =
         some ({ site with
                   hub_height := m.wind_turbine_hub_ht
                   wind_resource := { site.wind_resource with
                     hub_height_meters := m.wind_turbine_hub_ht } }, m)) ∧
    (¬ (mn ≤ m.wind_turbine_hub_ht ∧ m.wind_turbine_hub_ht ≤ mx) →
       hub_height_reconcile fetch site m =
         some ({ hub_height := m.wind_turbine_hub_ht
                 wind_resource := fetch site.wind_resource.latitude
                   site.wind_resource.longitude site.wind_resource.year },
               { m with wind_resource_data :=
                   (fetch site.wind_resource.latitude site.wind_resource.longitude
                      site.wind_resource.year).data })) := by
  constructor <;> intro hrange <;>
    · unfold hub_height_reconcile
      rw [if_neg hne, hmn, hmx]
      dsimp only
      first
      | rw [if_pos hrange]
      | rw [if_neg hrange]

/-- Witness for C6: on `sampleSite` (heights 60 m and 100 m, recorded 80 m)
with hub height 110 m, the resource is re-fetched via `sampleFetch` and its
data written into the system model. -/
theorem hub_height_reconcile_spec_witness :
    hub_height_reconcile sampleFetch sampleSite sampleModelHigh =
      some ({ hub_height := sampleModelHigh.wind_turbine_hub_ht
              wind_resource := sampleFetch sampleSite.wind_resource.latitude
                sampleSite.wind_resource.longitude sampleSite.wind_resource.year },
            { sampleModelHigh with wind_resource_data :=
                (sampleFetch sampleSite.wind_resource.latitude
                   sampleSite.wind_resource.longitude
                   sampleSite.wind_resource.year).data }) :=
  (hub_height_reconcile_spec sampleFetch sampleSite sampleModelHigh 60 100
      (by decide) (by decide) (by decide)).2 (by decide)
